import Mathlib

/-!
Shallow embedding of `programmer.py` (meetjestad/mjs_bootstrap): the
configuration-block encoder, the CRC-32C checksum, the option-byte
redundancy encoder, the flash alignment / verification logic, the
dfu-util legacy-reset classification, and a trace model of `main`.

Bytes are modelled as `Nat` (values < 256 where relevant), byte strings
as `List Nat`.
-/

/-! ### struct.pack primitives -/

/-- Big-endian encoding of `v` into `n` bytes, as `struct.pack` with a
`>` format does for an in-range value (out-of-range values are reduced
modulo `2 ^ (8 * n)`). -/
def packBE : Nat → Nat → List Nat
  | 0, _ => []
  | n + 1, v => packBE n (v / 256) ++ [v % 256]

/-- Little-endian encoding of `v` into `n` bytes, as `struct.pack` with
a `<` format does for an in-range value. -/
def packLE : Nat → Nat → List Nat
  | 0, _ => []
  | n + 1, v => v % 256 :: packLE n (v / 256)

/-- `struct.pack` semantics of the `16s` field: the bytes are truncated
to 16 bytes, or zero-padded up to 16 bytes (never an error). -/
def pack16s (b : List Nat) : List Nat :=
  b.take 16 ++ List.replicate (16 - b.length) 0

/-! ### Constants of programmer.py -/

def CRC_SIZE : Nat := 4
def KEY_SIZE : Nat := 16

/-- `struct.calcsize(SEGMENT_FORMAT)` for `">BBQQ16sHH"`. -/
def struct_calcsize_SEGMENT_FORMAT : Nat := 1 + 1 + 8 + 8 + KEY_SIZE + 2 + 2

/-- `struct.calcsize(BLOCK_FORMAT)` for `">IBBQQ16sHHHI"`. -/
def struct_calcsize_BLOCK_FORMAT : Nat := 4 + struct_calcsize_SEGMENT_FORMAT + 2 + 4

def APP_EUI : Nat := 0x70B3D57ED00003BA
def DFU_FLASH_ALT : String := "0"
def DFU_OPTION_ALT : String := "1"
def FLASH_SIZE : Nat := 192 * 1024
def FLASH_START_ADDRESS : Nat := 0x08000000
def FLASH_ALIGN : Nat := 128
def FLASH_PROTECT_SECTOR_SIZE : Nat := 4096
def PROTECTED_SECTOR : Nat := FLASH_SIZE / FLASH_PROTECT_SECTOR_SIZE - 1
def OPTION_START_ADDRESS : Nat := 0x1FF80000

def OPTION_BYTES_DEFAULT : List Nat := [0x807000AA, 0x00000000, 0x0000]

def OPTION_BYTES_UNPROTECTED : List Nat :=
  [OPTION_BYTES_DEFAULT.getD 0 0 ||| 0x60000,
   OPTION_BYTES_DEFAULT.getD 1 0,
   OPTION_BYTES_DEFAULT.getD 2 0]

/-- Word 1 of the protected option bytes, as a function of the protected
sector index: `OPTION_BYTES_UNPROTECTED[1] | (1 << S if S <= 31 else 0)`. -/
def protectedWord1 (S : Nat) : Nat :=
  OPTION_BYTES_UNPROTECTED.getD 1 0 ||| (if S ≤ 31 then 1 <<< S else 0)

/-- Word 2 of the protected option bytes, as a function of the protected
sector index: `OPTION_BYTES_UNPROTECTED[2] | (1 << (S - 32) if S >= 32 else 0)`. -/
def protectedWord2 (S : Nat) : Nat :=
  OPTION_BYTES_UNPROTECTED.getD 2 0 ||| (if 32 ≤ S then 1 <<< (S - 32) else 0)

def OPTION_BYTES_PROTECTED : List Nat :=
  [OPTION_BYTES_UNPROTECTED.getD 0 0,
   protectedWord1 PROTECTED_SECTOR,
   protectedWord2 PROTECTED_SECTOR]

/-! ### CRC-32C -/

/-- Embedding of the external `crc32c` library: standard CRC-32C
(Castagnoli), reflected algorithm, polynomial `0x82F63B78`, initial
value and final xor `0xFFFFFFFF`. One bit step. -/
def crc32cShift (c : Nat) : Nat :=
  if c % 2 = 1 then (c / 2) ^^^ 0x82F63B78 else c / 2

/-- Fold one byte into the running CRC state. -/
def crc32cByte (crc b : Nat) : Nat :=
  (List.range 8).foldl (fun c _ => crc32cShift c) (crc ^^^ b)

/-- `crc32c.crc32c(data)`. -/
def crc32c (data : List Nat) : Nat :=
  (data.foldl crc32cByte 0xFFFFFFFF) ^^^ 0xFFFFFFFF

/-! ### EepromContents and the block encoder -/

/-- The `EepromContents` named tuple, fields in tuple order, with its
default values. -/
structure EepromContents where
  crc : Nat
  board_id : Nat
  board_version : Nat
  app_eui : Nat
  dev_eui : Nat
  app_key : List Nat
  segment_size : Nat := struct_calcsize_SEGMENT_FORMAT
  segment_type : Nat := 0x0201
  total_size : Nat := struct_calcsize_BLOCK_FORMAT
  magic : Nat := 0xB6E03B02

/-- `struct.pack(BLOCK_FORMAT, *e)` with `BLOCK_FORMAT = ">IBBQQ16sHHHI"`:
the ten tuple fields packed big-endian, in tuple order. -/
def struct_pack_block (e : EepromContents) : List Nat :=
  packBE 4 e.crc ++ packBE 1 e.board_id ++ packBE 1 e.board_version ++
  packBE 8 e.app_eui ++ packBE 8 e.dev_eui ++ pack16s e.app_key ++
  packBE 2 e.segment_size ++ packBE 2 e.segment_type ++ packBE 2 e.total_size ++
  packBE 4 e.magic

/-- `generate_flash`: build the block with `crc = 0`, checksum everything
after the first `CRC_SIZE` bytes, and re-pack with the computed CRC. -/
def generate_flash (app_eui dev_eui : Nat) (app_key : List Nat)
    (board_id board_version : Nat) : List Nat :=
  let flash_before_crc : EepromContents :=
    { crc := 0, board_id := board_id, board_version := board_version,
      app_eui := app_eui, dev_eui := dev_eui, app_key := app_key }
  let binary_before_crc := struct_pack_block flash_before_crc
  let flash :=
    { flash_before_crc with crc := crc32c (binary_before_crc.drop CRC_SIZE) }
  struct_pack_block flash

/-- The `flash_before_crc` record built inside `generate_flash`: all
caller fields set, `crc` still zero, the remaining fields at their
defaults. -/
def flash_before_crc (app_eui dev_eui : Nat) (app_key : List Nat)
    (board_id board_version : Nat) : EepromContents :=
  { crc := 0, board_id := board_id, board_version := board_version,
    app_eui := app_eui, dev_eui := dev_eui, app_key := app_key }

/-- The fields of the block after the leading CRC field. -/
def struct_pack_block_tail (e : EepromContents) : List Nat :=
  packBE 1 e.board_id ++ packBE 1 e.board_version ++ packBE 8 e.app_eui ++
  packBE 8 e.dev_eui ++ pack16s e.app_key ++ packBE 2 e.segment_size ++
  packBE 2 e.segment_type ++ packBE 2 e.total_size ++ packBE 4 e.magic

/-! ### Option byte encoder -/

/-- `encode_option_bytes`: for each 32-bit word, emit the low half-word,
its complement, the high half-word, its complement, each as a
little-endian 16-bit unit (`struct.pack('<HH', hw, hw ^ 0xffff)`). -/
def encode_option_bytes (words : List Nat) : List Nat :=
  words.foldl
    (fun res word =>
      [word &&& 0xffff, word >>> 16].foldl
        (fun r hw => r ++ (packLE 2 hw ++ packLE 2 (hw ^^^ 0xffff))) res)
    []

/-! ### program_flash alignment -/

/-- `padding = offset % FLASH_ALIGN` in `program_flash`. -/
def program_flash_padding (offset : Nat) : Nat := offset % FLASH_ALIGN

/-- `data = b'\x00' * padding + flash` in `program_flash`. -/
def program_flash_data (flash : List Nat) (offset : Nat) : List Nat :=
  List.replicate (program_flash_padding offset) 0 ++ flash

/-- `address = FLASH_START_ADDRESS + offset - padding` in `program_flash`. -/
def program_flash_address (offset : Nat) : Nat :=
  FLASH_START_ADDRESS + offset - program_flash_padding offset

/-! ### verify_dfu -/

/-- `verify_dfu` reads back `len(data)` bytes (the length in the
`--dfuse-address` argument). -/
def verify_dfu_read_length (data : List Nat) : Nat := data.length

/-- `verify_dfu` succeeds exactly when the read-back bytes equal the
written data (`read_back != data` raises `RuntimeError`). -/
def verify_dfu_matches (data read_back : List Nat) : Bool := read_back == data

/-! ### dfu-util legacy reset classification -/

/-- Python's `sub in hay` on byte strings: `sub` occurs contiguously in
`hay` (the empty sequence occurs in everything). -/
def list_contains_seq (sub : List Char) : List Char → Bool
  | [] => sub.isEmpty
  | a :: t => sub.isPrefixOf (a :: t) || list_contains_seq sub t

inductive DfuOutcome where
  | ok
  | okWithWarning
  | err
deriving DecidableEq

def LEGACY_RESET_CODE : Nat := 74
def LEGACY_RESET_MESSAGE : String := "dfu-util: Error during download get_status"

/-- The dfu-util 0.9 reset handling in `program_dfu`: exit status 74
with the benign diagnostic in the combined output is logged as a warning
and treated as success; otherwise `check_returncode` raises exactly when
the exit status is non-zero. -/
def legacy_reset_result (returncode : Nat) (captured : String) : DfuOutcome :=
  if returncode == LEGACY_RESET_CODE
      && list_contains_seq LEGACY_RESET_MESSAGE.data captured.data then
    DfuOutcome.okWithWarning
  else if returncode == 0 then DfuOutcome.ok
  else DfuOutcome.err

/-! ### Trace model of the orchestration in main -/

/-- External calls `main` can issue (subprocess invocations that touch
the device or the network). -/
inductive Event where
  | dfuDownload (alt : String) (data : List Nat) (address : Nat)
  | dfuUpload (alt : String) (readLength : Nat) (address : Nat) (readBack : List Nat)
  | ttnRegister (dev_eui : Nat) (app_key : List Nat)
deriving DecidableEq

/-- Outcomes of the external calls, fixed per run: whether each
subprocess exits zero, and the bytes the verification upload reads back. -/
structure DfuEnv where
  flashWriteOk : Bool
  verifyUploadOk : Bool
  readBack : List Nat
  optionWriteOk : Bool
  registerOk : Bool

/-- Command-line arguments of `main` that the model needs (`--board`
resolved to its registry entry). -/
structure Args where
  board_id : Nat
  board_version : Nat
  id : Nat
  skip_flash : Bool
  skip_register : Bool
  unprotect : Bool

/-- `program_flash` followed by `verify_dfu` (the verify runs only when
the flash is not skipped): events issued, and the error (exception
message) if one is raised. -/
def run_program_flash (env : DfuEnv) (skip_flash : Bool) (flash : List Nat)
    (offset : Nat) : List Event × Option String :=
  let data := program_flash_data flash offset
  let address := program_flash_address offset
  if skip_flash then ([], none)
  else if env.flashWriteOk = false then
    ([Event.dfuDownload DFU_FLASH_ALT data address],
     some "dfu-util returned non-zero exit status")
  else if env.verifyUploadOk = false then
    ([Event.dfuDownload DFU_FLASH_ALT data address,
      Event.dfuUpload DFU_FLASH_ALT (verify_dfu_read_length data) address env.readBack],
     some "dfu-util -U returned non-zero exit status")
  else if verify_dfu_matches data env.readBack then
    ([Event.dfuDownload DFU_FLASH_ALT data address,
      Event.dfuUpload DFU_FLASH_ALT (verify_dfu_read_length data) address env.readBack],
     none)
  else
    ([Event.dfuDownload DFU_FLASH_ALT data address,
      Event.dfuUpload DFU_FLASH_ALT (verify_dfu_read_length data) address env.readBack],
     some "Verification of flash failed, data read back was different. Maybe you need to --unprotect first?")

/-- `program_option_bytes`: one download to the option region at
`OPTION_START_ADDRESS`, never verified. -/
def run_program_option_bytes (env : DfuEnv) (skip_flash : Bool) (data : List Nat) :
    List Event × Option String :=
  if skip_flash then ([], none)
  else if env.optionWriteOk then
    ([Event.dfuDownload DFU_OPTION_ALT data OPTION_START_ADDRESS], none)
  else
    ([Event.dfuDownload DFU_OPTION_ALT data OPTION_START_ADDRESS],
     some "dfu-util returned non-zero exit status while writing option bytes")

/-- `register_device`: one `ttn-lw-cli` call unless registration is
skipped. -/
def run_register (env : DfuEnv) (skip_register : Bool) (dev_eui : Nat)
    (app_key : List Nat) : List Event × Option String :=
  if skip_register then ([], none)
  else if env.registerOk then ([Event.ttnRegister dev_eui app_key], none)
  else ([Event.ttnRegister dev_eui app_key], some "ttn-lw-cli returned non-zero exit status")

/-- The body of the `try` block in `main`: the unprotect path writes the
UNPROTECTED option image only; the normal path generates the flash
block, programs and verifies it at the end of flash, programs the
PROTECTED option image, then registers the device. The first raised
error aborts the rest. -/
def main_try (env : DfuEnv) (args : Args) (app_key : List Nat) :
    List Event × Option String :=
  if args.unprotect then
    run_program_option_bytes env args.skip_flash
      (encode_option_bytes OPTION_BYTES_UNPROTECTED)
  else
    let flash := generate_flash APP_EUI args.id app_key args.board_id args.board_version
    let flash_offset := FLASH_SIZE - flash.length
    let r1 := run_program_flash env args.skip_flash flash flash_offset
    match r1.2 with
    | some msg => (r1.1, some msg)
    | none =>
      let r2 := run_program_option_bytes env args.skip_flash
        (encode_option_bytes OPTION_BYTES_PROTECTED)
      match r2.2 with
      | some msg => (r1.1 ++ r2.1, some msg)
      | none =>
        let r3 := run_register env args.skip_register args.id app_key
        (r1.1 ++ r2.1 ++ r3.1, r3.2)

/-- What a whole run of `main` produces: the external calls issued, the
error logged by the `except` clause (if any), and the process exit
status. -/
structure RunResult where
  trace : List Event
  logged_error : Option String
  exit_status : Nat

/-- `main`: the `try` body wrapped in `except Exception as e:
logging.error(e)` — every exception is caught and logged, and the
process then falls off the end of the script, exiting with status 0. -/
def pymain (env : DfuEnv) (args : Args) (app_key : List Nat) : RunResult :=
  { trace := (main_try env args app_key).1,
    logged_error := (main_try env args app_key).2,
    exit_status := 0 }

/-! ### Helper lemmas -/

theorem packBE_length (n v : Nat) : (packBE n v).length = n := by
  induction n generalizing v with
  | zero => rfl
  | succ n ih => simp [packBE, ih]

theorem packLE_length (n v : Nat) : (packLE n v).length = n := by
  induction n generalizing v with
  | zero => rfl
  | succ n ih => simp [packLE, ih]

theorem pack16s_length (b : List Nat) : (pack16s b).length = 16 := by
  simp [pack16s]
  omega

theorem pack16s_eq_self {b : List Nat} (h : b.length = 16) : pack16s b = b := by
  simp [pack16s, h, List.take_of_length_le (Nat.le_of_eq h)]

theorem struct_pack_block_eq (e : EepromContents) :
    struct_pack_block e = packBE 4 e.crc ++ struct_pack_block_tail e := rfl

theorem struct_pack_block_tail_crc (e : EepromContents) (c : Nat) :
    struct_pack_block_tail { e with crc := c } = struct_pack_block_tail e := rfl

theorem struct_pack_block_length (e : EepromContents) :
    (struct_pack_block e).length = 48 := by
  simp [struct_pack_block, packBE_length, pack16s_length]

theorem struct_pack_block_take_crc (e : EepromContents) :
    (struct_pack_block e).take 4 = packBE 4 e.crc := by
  rw [struct_pack_block_eq]
  exact List.take_left' (packBE_length 4 e.crc)

theorem struct_pack_block_drop_crc (e : EepromContents) :
    (struct_pack_block e).drop 4 = struct_pack_block_tail e := by
  rw [struct_pack_block_eq]
  exact List.drop_left' (packBE_length 4 e.crc)

theorem generate_flash_eq (app_eui dev_eui : Nat) (app_key : List Nat)
    (board_id board_version : Nat) :
    generate_flash app_eui dev_eui app_key board_id board_version =
      struct_pack_block
        { flash_before_crc app_eui dev_eui app_key board_id board_version with
          crc := crc32c ((struct_pack_block
            (flash_before_crc app_eui dev_eui app_key board_id board_version)).drop
              CRC_SIZE) } := rfl

theorem packBE_mem_lt (n v : Nat) : ∀ b ∈ packBE n v, b < 256 := by
  induction n generalizing v with
  | zero => intro b hb; simp [packBE] at hb
  | succ n ih =>
    intro b hb
    simp only [packBE, List.mem_append, List.mem_singleton] at hb
    rcases hb with hb | hb
    · exact ih _ b hb
    · omega

theorem pack16s_mem_lt {key : List Nat} (h : ∀ b ∈ key, b < 256) :
    ∀ b ∈ pack16s key, b < 256 := by
  intro b hb
  simp only [pack16s, List.mem_append] at hb
  rcases hb with hb | hb
  · exact h b (List.take_subset _ _ hb)
  · rw [List.eq_of_mem_replicate hb]; omega

theorem struct_pack_block_mem_lt (e : EepromContents)
    (h : ∀ b ∈ e.app_key, b < 256) : ∀ b ∈ struct_pack_block e, b < 256 := by
  intro b hb
  simp only [struct_pack_block, List.mem_append] at hb
  rcases hb with ((((((((hb | hb) | hb) | hb) | hb) | hb) | hb) | hb) | hb) | hb
  · exact packBE_mem_lt _ _ b hb
  · exact packBE_mem_lt _ _ b hb
  · exact packBE_mem_lt _ _ b hb
  · exact packBE_mem_lt _ _ b hb
  · exact packBE_mem_lt _ _ b hb
  · exact pack16s_mem_lt h b hb
  · exact packBE_mem_lt _ _ b hb
  · exact packBE_mem_lt _ _ b hb
  · exact packBE_mem_lt _ _ b hb
  · exact packBE_mem_lt _ _ b hb

theorem crc32cShift_lt {c : Nat} (h : c < 2 ^ 32) : crc32cShift c < 2 ^ 32 := by
  unfold crc32cShift
  split
  · exact Nat.xor_lt_two_pow (by omega) (by norm_num)
  · omega

theorem crc32cByte_eq (crc b : Nat) :
    crc32cByte crc b =
      crc32cShift (crc32cShift (crc32cShift (crc32cShift
        (crc32cShift (crc32cShift (crc32cShift (crc32cShift (crc ^^^ b)))))))) := rfl

theorem crc32cByte_lt {crc b : Nat} (hc : crc < 2 ^ 32) (hb : b < 256) :
    crc32cByte crc b < 2 ^ 32 := by
  have h0 : crc ^^^ b < 2 ^ 32 := Nat.xor_lt_two_pow hc (by omega)
  rw [crc32cByte_eq]
  exact crc32cShift_lt (crc32cShift_lt (crc32cShift_lt (crc32cShift_lt
    (crc32cShift_lt (crc32cShift_lt (crc32cShift_lt (crc32cShift_lt h0)))))))

theorem crc32c_lt (data : List Nat) (h : ∀ b ∈ data, b < 256) :
    crc32c data < 2 ^ 32 := by
  unfold crc32c
  suffices hs : ∀ (l : List Nat) (acc : Nat), (∀ b ∈ l, b < 256) → acc < 2 ^ 32 →
      l.foldl crc32cByte acc < 2 ^ 32 by
    exact Nat.xor_lt_two_pow (hs data _ h (by norm_num)) (by norm_num)
  intro l
  induction l with
  | nil => intro acc _ ha; simpa using ha
  | cons x xs ih =>
    intro acc hl ha
    simp only [List.foldl_cons]
    exact ih _ (fun b hb => hl b (List.mem_cons_of_mem _ hb))
      (crc32cByte_lt ha (hl x (List.mem_cons_self _ _)))

theorem struct_pack_block_key_bytes (e : EepromContents) :
    ((struct_pack_block e).drop 22).take 16 = pack16s e.app_key := by
  have h : struct_pack_block e =
      (packBE 4 e.crc ++ packBE 1 e.board_id ++ packBE 1 e.board_version ++
        packBE 8 e.app_eui ++ packBE 8 e.dev_eui) ++
      (pack16s e.app_key ++ (packBE 2 e.segment_size ++ packBE 2 e.segment_type ++
        packBE 2 e.total_size ++ packBE 4 e.magic)) := by
    simp [struct_pack_block, List.append_assoc]
  rw [h, List.drop_left' (by simp [packBE_length]),
    List.take_left' (pack16s_length e.app_key)]

/-! ### Claim theorems -/

/-- C1 counterexample: the encoded ConfigurationBlock for a concrete
valid input is not 60 bytes long (it is 48 bytes). -/
theorem c1_block_not_sixty_bytes :
    (generate_flash 0 0 (List.replicate 16 0) 0 0).length ≠ 60 := by
  rw [generate_flash_eq, struct_pack_block_length]
  decide

/-- C1 (amended): for every valid input the encoded ConfigurationBlock
is exactly 48 bytes long, and its fields appear in wire order `crc`
(4 bytes, first), `board_id`, `board_version`, `app_eui`, `dev_eui`,
`app_key`, `segment_size` (2 bytes), `segment_type` (2 bytes),
`total_size` (2 bytes), `magic` (4 bytes, last), with multi-byte
integers big-endian. -/
theorem c1_block_layout (app_eui dev_eui : Nat) (app_key : List Nat)
    (board_id board_version : Nat)
    (h1 : board_id < 256) (h2 : board_version < 256)
    (h3 : app_eui < 2 ^ 64) (h4 : dev_eui < 2 ^ 64)
    (h5 : app_key.length = KEY_SIZE) :
    ∃ c,
      generate_flash app_eui dev_eui app_key board_id board_version =
        packBE 4 c ++ packBE 1 board_id ++ packBE 1 board_version ++
        packBE 8 app_eui ++ packBE 8 dev_eui ++ app_key ++
        packBE 2 struct_calcsize_SEGMENT_FORMAT ++ packBE 2 0x0201 ++
        packBE 2 struct_calcsize_BLOCK_FORMAT ++ packBE 4 0xB6E03B02 ∧
      (generate_flash app_eui dev_eui app_key board_id board_version).length = 48 ∧
      struct_calcsize_BLOCK_FORMAT = 48 := by
  refine ⟨crc32c ((struct_pack_block
      (flash_before_crc app_eui dev_eui app_key board_id board_version)).drop CRC_SIZE),
    ?_, ?_, rfl⟩
  · rw [generate_flash_eq]
    show packBE 4 _ ++ packBE 1 board_id ++ packBE 1 board_version ++
        packBE 8 app_eui ++ packBE 8 dev_eui ++ pack16s app_key ++
        packBE 2 struct_calcsize_SEGMENT_FORMAT ++ packBE 2 0x0201 ++
        packBE 2 struct_calcsize_BLOCK_FORMAT ++ packBE 4 0xB6E03B02 = _
    rw [pack16s_eq_self h5]
  · rw [generate_flash_eq, struct_pack_block_length]

/-- C1 witness: the amended layout theorem applied at a concrete valid
input. -/
theorem c1_block_layout_witness :
    ∃ c,
      generate_flash 0x70B3D57ED00003BA 42 (List.replicate 16 0) 2 2 =
        packBE 4 c ++ packBE 1 2 ++ packBE 1 2 ++
        packBE 8 0x70B3D57ED00003BA ++ packBE 8 42 ++ List.replicate 16 0 ++
        packBE 2 struct_calcsize_SEGMENT_FORMAT ++ packBE 2 0x0201 ++
        packBE 2 struct_calcsize_BLOCK_FORMAT ++ packBE 4 0xB6E03B02 ∧
      (generate_flash 0x70B3D57ED00003BA 42 (List.replicate 16 0) 2 2).length = 48 ∧
      struct_calcsize_BLOCK_FORMAT = 48 :=
  c1_block_layout 0x70B3D57ED00003BA 42 (List.replicate 16 0) 2 2
    (by decide) (by decide) (by decide) (by decide) (by decide)

/-- C2: the `crc` field of the encoded block (its first 4 bytes,
big-endian) equals CRC-32C of the serialization with the CRC field set
to zero and the first 4 bytes excluded, which also equals CRC-32C of the
final block's own bytes after the first 4 (re-serializing with the
computed CRC leaves those bytes unchanged). -/
theorem c2_crc_field_correct (app_eui dev_eui : Nat) (app_key : List Nat)
    (board_id board_version : Nat) (hkey : ∀ b ∈ app_key, b < 256) :
    crc32c ((struct_pack_block
        (flash_before_crc app_eui dev_eui app_key board_id board_version)).drop
        CRC_SIZE) < 2 ^ 32 ∧
    (generate_flash app_eui dev_eui app_key board_id board_version).take CRC_SIZE =
      packBE 4 (crc32c ((struct_pack_block
        (flash_before_crc app_eui dev_eui app_key board_id board_version)).drop
        CRC_SIZE)) ∧
    (generate_flash app_eui dev_eui app_key board_id board_version).drop CRC_SIZE =
      (struct_pack_block
        (flash_before_crc app_eui dev_eui app_key board_id board_version)).drop
        CRC_SIZE ∧
    (generate_flash app_eui dev_eui app_key board_id board_version).take CRC_SIZE =
      packBE 4 (crc32c
        ((generate_flash app_eui dev_eui app_key board_id board_version).drop
          CRC_SIZE)) := by
  have hdrop : (generate_flash app_eui dev_eui app_key board_id board_version).drop
      CRC_SIZE =
      (struct_pack_block
        (flash_before_crc app_eui dev_eui app_key board_id board_version)).drop
        CRC_SIZE := by
    simp only [CRC_SIZE]
    rw [generate_flash_eq]
    simp only [CRC_SIZE]
    rw [struct_pack_block_drop_crc, struct_pack_block_drop_crc]
    exact struct_pack_block_tail_crc _ _
  have htake : (generate_flash app_eui dev_eui app_key board_id board_version).take
      CRC_SIZE =
      packBE 4 (crc32c ((struct_pack_block
        (flash_before_crc app_eui dev_eui app_key board_id board_version)).drop
        CRC_SIZE)) := by
    simp only [CRC_SIZE]
    rw [generate_flash_eq]
    simp only [CRC_SIZE]
    rw [struct_pack_block_take_crc]
  refine ⟨?_, htake, hdrop, ?_⟩
  · exact crc32c_lt _ fun b hb =>
      struct_pack_block_mem_lt _ hkey b (List.drop_subset _ _ hb)
  · rw [hdrop]
    exact htake

/-- C2 witness: the CRC theorem applied at a concrete valid input. -/
theorem c2_crc_field_correct_witness :
    crc32c ((struct_pack_block
        (flash_before_crc 0x70B3D57ED00003BA 42 (List.replicate 16 0) 2 2)).drop
        CRC_SIZE) < 2 ^ 32 ∧
    (generate_flash 0x70B3D57ED00003BA 42 (List.replicate 16 0) 2 2).take CRC_SIZE =
      packBE 4 (crc32c ((struct_pack_block
        (flash_before_crc 0x70B3D57ED00003BA 42 (List.replicate 16 0) 2 2)).drop
        CRC_SIZE)) ∧
    (generate_flash 0x70B3D57ED00003BA 42 (List.replicate 16 0) 2 2).drop CRC_SIZE =
      (struct_pack_block
        (flash_before_crc 0x70B3D57ED00003BA 42 (List.replicate 16 0) 2 2)).drop
        CRC_SIZE ∧
    (generate_flash 0x70B3D57ED00003BA 42 (List.replicate 16 0) 2 2).take CRC_SIZE =
      packBE 4 (crc32c
        ((generate_flash 0x70B3D57ED00003BA 42 (List.replicate 16 0) 2 2).drop
          CRC_SIZE)) :=
  c2_crc_field_correct 0x70B3D57ED00003BA 42 (List.replicate 16 0) 2 2
    (by decide)

/-- C8 counterexample: calling the encoder with an `app_key` that is not
16 bytes (here: empty) does not fail; it still produces a full 48-byte
encoded block. -/
theorem c8_short_key_still_encodes :
    (generate_flash 0 0 [] 0 0).length = 48 := by
  rw [generate_flash_eq, struct_pack_block_length]

/-- C8 (amended): the encoder has no length check: `struct.pack('16s')`
zero-pads a short `app_key` and truncates a long one, so encoding always
succeeds, producing a 48-byte block whose key field holds
`app_key[:16]` padded with zero bytes. The 16-byte invariant is kept
only by the caller, which generates the key with
`secrets.token_bytes(KEY_SIZE)`. -/
theorem c8_key_zero_padded (app_eui dev_eui : Nat) (app_key : List Nat)
    (board_id board_version : Nat) :
    (generate_flash app_eui dev_eui app_key board_id board_version).length = 48 ∧
    ((generate_flash app_eui dev_eui app_key board_id board_version).drop 22).take 16 =
      app_key.take 16 ++ List.replicate (16 - app_key.length) 0 := by
  constructor
  · rw [generate_flash_eq, struct_pack_block_length]
  · rw [generate_flash_eq, struct_pack_block_key_bytes]
    rfl

theorem encode_option_bytes_foldl (words : List Nat) (res : List Nat) :
    words.foldl
      (fun res word =>
        [word &&& 0xffff, word >>> 16].foldl
          (fun r hw => r ++ (packLE 2 hw ++ packLE 2 (hw ^^^ 0xffff))) res)
      res =
    res ++ words.flatMap (fun word =>
      packLE 2 (word &&& 0xffff) ++ packLE 2 ((word &&& 0xffff) ^^^ 0xffff) ++
      packLE 2 (word >>> 16) ++ packLE 2 ((word >>> 16) ^^^ 0xffff)) := by
  induction words generalizing res with
  | nil => simp
  | cons w ws ih =>
    rw [List.foldl_cons, ih, List.flatMap_cons]
    simp [List.append_assoc]

theorem flatMap_halfword_length (words : List Nat) :
    (words.flatMap (fun w =>
      packLE 2 (w % 65536) ++ packLE 2 ((w % 65536) ^^^ 0xffff) ++
      packLE 2 (w / 65536) ++ packLE 2 ((w / 65536) ^^^ 0xffff))).length =
      8 * words.length := by
  induction words with
  | nil => rfl
  | cons w ws ih =>
    simp only [List.flatMap_cons, List.length_append, packLE_length, ih,
      List.length_cons]
    omega

/-- C3: the option-byte encoder emits, for each word in input order,
four little-endian 16-bit units `low, low XOR 0xFFFF, high, high XOR
0xFFFF` with `low = word mod 2^16` and `high = word div 2^16`; the
output is exactly `8 * len(words)` bytes (total, including the empty
sequence, by construction as a Lean function). -/
theorem c3_option_bytes_encoding (words : List Nat)
    (h : ∀ w ∈ words, w < 2 ^ 32) :
    encode_option_bytes words =
      words.flatMap (fun w =>
        packLE 2 (w % 65536) ++ packLE 2 ((w % 65536) ^^^ 0xffff) ++
        packLE 2 (w / 65536) ++ packLE 2 ((w / 65536) ^^^ 0xffff)) ∧
    (encode_option_bytes words).length = 8 * words.length := by
  have hand : ∀ w : Nat, w &&& 0xffff = w % 65536 := by
    intro w
    have h16 := Nat.and_pow_two_sub_one_eq_mod w 16
    norm_num at h16
    exact h16
  have hshift : ∀ w : Nat, w >>> 16 = w / 65536 := by
    intro w
    rw [Nat.shiftRight_eq_div_pow]
  have he : encode_option_bytes words =
      words.flatMap (fun w =>
        packLE 2 (w % 65536) ++ packLE 2 ((w % 65536) ^^^ 0xffff) ++
        packLE 2 (w / 65536) ++ packLE 2 ((w / 65536) ^^^ 0xffff)) := by
    unfold encode_option_bytes
    rw [encode_option_bytes_foldl]
    simp only [hand, hshift, List.nil_append]
  exact ⟨he, by rw [he, flatMap_halfword_length]⟩

/-- C3 witness: the encoder theorem applied to the one-word sequence
`[0x807600AA]`. -/
theorem c3_option_bytes_encoding_witness :
    encode_option_bytes [0x807600AA] =
      [0x807600AA].flatMap (fun w =>
        packLE 2 (w % 65536) ++ packLE 2 ((w % 65536) ^^^ 0xffff) ++
        packLE 2 (w / 65536) ++ packLE 2 ((w / 65536) ^^^ 0xffff)) ∧
    (encode_option_bytes [0x807600AA]).length = 8 * [0x807600AA].length :=
  c3_option_bytes_encoding [0x807600AA] (by decide)

/-- C4: with the legacy dfu-util, exit status 74 together with the
benign diagnostic substring in the combined output is treated as success
with a warning; exit status 74 without the substring, or any other
non-zero exit status, is a genuine failure; and the warning case arises
only when both the status and the substring match. -/
theorem c4_legacy_reset (rc : Nat) (out : String) :
    (rc = 74 → list_contains_seq LEGACY_RESET_MESSAGE.data out.data = true →
      legacy_reset_result rc out = DfuOutcome.okWithWarning) ∧
    (rc = 74 → list_contains_seq LEGACY_RESET_MESSAGE.data out.data = false →
      legacy_reset_result rc out = DfuOutcome.err) ∧
    (rc ≠ 0 → rc ≠ 74 → legacy_reset_result rc out = DfuOutcome.err) ∧
    (legacy_reset_result rc out = DfuOutcome.okWithWarning →
      rc = 74 ∧ list_contains_seq LEGACY_RESET_MESSAGE.data out.data = true) := by
  unfold legacy_reset_result LEGACY_RESET_CODE
  refine ⟨?_, ?_, ?_, ?_⟩
  · intro h1 h2
    subst h1
    simp [h2]
  · intro h1 h2
    subst h1
    simp [h2]
  · intro h1 h2
    simp [Bool.and_eq_true, beq_iff_eq, h1, h2]
  · intro h
    by_cases hc :
        (rc == 74 && list_contains_seq LEGACY_RESET_MESSAGE.data out.data) = true
    · have hc2 := hc
      simp only [Bool.and_eq_true, beq_iff_eq] at hc2
      exact hc2
    · rw [if_neg (by simpa using hc)] at h
      by_cases h0 : (rc == 0) = true
      · simp [h0] at h
      · simp [h0] at h

/-- C4 witness: the classification theorem applied at exit status 74
with the benign output, at 74 with other output, and at exit status 1. -/
theorem c4_legacy_reset_witness :
    legacy_reset_result 74 LEGACY_RESET_MESSAGE = DfuOutcome.okWithWarning ∧
    legacy_reset_result 74 "some unrelated dfu-util failure" = DfuOutcome.err ∧
    legacy_reset_result 1 "" = DfuOutcome.err :=
  ⟨(c4_legacy_reset 74 LEGACY_RESET_MESSAGE).1 rfl (by decide),
   (c4_legacy_reset 74 "some unrelated dfu-util failure").2.1 rfl (by decide),
   (c4_legacy_reset 1 "").2.2.1 (by decide) (by decide)⟩

/-- C5: the padding computed by `program_flash` is `offset mod 128`,
lies in `[0, 128)`, is prepended as zero bytes, and is subtracted from
the base address, so the written address is 128-aligned and
`address + padding = FLASH_START_ADDRESS + offset`. -/
theorem c5_alignment (offset : Nat) (flash : List Nat) :
    program_flash_padding offset < FLASH_ALIGN ∧
    program_flash_data flash offset =
      List.replicate (offset % FLASH_ALIGN) 0 ++ flash ∧
    program_flash_address offset % FLASH_ALIGN = 0 ∧
    program_flash_address offset + program_flash_padding offset =
      FLASH_START_ADDRESS + offset := by
  refine ⟨Nat.mod_lt _ (by norm_num [FLASH_ALIGN]), rfl, ?_, ?_⟩
  · simp only [program_flash_address, program_flash_padding, FLASH_START_ADDRESS,
      FLASH_ALIGN]
    omega
  · simp only [program_flash_address, program_flash_padding, FLASH_START_ADDRESS,
      FLASH_ALIGN]
    omega

/-- C6: for every sector index S, the protected option words add the
extra bit to word 1 exactly when `S <= 31` and to word 2 exactly when
`S >= 32`, never both; for this program's geometry `PROTECTED_SECTOR`
is 47, so the single extra bit is bit 15 of word 2. -/
theorem c6_protected_extra_bit :
    (∀ S : Nat,
      (S ≤ 31 →
        protectedWord1 S = OPTION_BYTES_UNPROTECTED.getD 1 0 ||| 1 <<< S ∧
        protectedWord2 S = OPTION_BYTES_UNPROTECTED.getD 2 0) ∧
      (32 ≤ S →
        protectedWord1 S = OPTION_BYTES_UNPROTECTED.getD 1 0 ∧
        protectedWord2 S = OPTION_BYTES_UNPROTECTED.getD 2 0 ||| 1 <<< (S - 32))) ∧
    PROTECTED_SECTOR = 47 ∧
    OPTION_BYTES_PROTECTED =
      [OPTION_BYTES_UNPROTECTED.getD 0 0,
       OPTION_BYTES_UNPROTECTED.getD 1 0,
       OPTION_BYTES_UNPROTECTED.getD 2 0 ||| 1 <<< 15] ∧
    OPTION_BYTES_PROTECTED.getD 0 0 = OPTION_BYTES_UNPROTECTED.getD 0 0 ∧
    OPTION_BYTES_PROTECTED.getD 1 0 = OPTION_BYTES_UNPROTECTED.getD 1 0 ∧
    OPTION_BYTES_PROTECTED.getD 2 0 ^^^ OPTION_BYTES_UNPROTECTED.getD 2 0 =
      2 ^ 15 := by
  refine ⟨?_, by decide, by decide, by decide, by decide, by decide⟩
  intro S
  constructor
  · intro h
    constructor
    · simp [protectedWord1, h]
    · simp [protectedWord2, show ¬ 32 ≤ S by omega]
  · intro h
    constructor
    · simp [protectedWord1, show ¬ S ≤ 31 by omega]
    · simp [protectedWord2, h]

/-- C6 witness: the preset theorem applied at the program's actual
sector index 47, discharging the `32 <= S` branch. -/
theorem c6_protected_extra_bit_witness :
    protectedWord1 47 = OPTION_BYTES_UNPROTECTED.getD 1 0 ∧
    protectedWord2 47 = OPTION_BYTES_UNPROTECTED.getD 2 0 ||| 1 <<< (47 - 32) :=
  (c6_protected_extra_bit.1 47).2 (by decide)

/-- C7 counterexample: when the flash write fails, `main` logs the error
but the process still exits with status 0, not a non-zero status (the
`except` clause swallows every exception). -/
theorem c7_error_exit_status_zero_counterexample :
    (pymain
      { flashWriteOk := false, verifyUploadOk := true, readBack := [],
        optionWriteOk := true, registerOk := true }
      { board_id := 2, board_version := 2, id := 42, skip_flash := false,
        skip_register := false, unprotect := false }
      (List.replicate 16 0)).logged_error ≠ none ∧
    (pymain
      { flashWriteOk := false, verifyUploadOk := true, readBack := [],
        optionWriteOk := true, registerOk := true }
      { board_id := 2, board_version := 2, id := 42, skip_flash := false,
        skip_register := false, unprotect := false }
      (List.replicate 16 0)).exit_status = 0 := by
  constructor
  · simp [pymain, main_try, run_program_flash]
  · rfl

/-- C7 (amended): every error aborts the remainder of the run
immediately — the trace stops at the failing call, with no retries and
no cleanup of completed writes — and the error is reported (logged), but
the process exit status is 0, because `main` catches every exception and
only logs it. -/
theorem c7_errors_abort_and_exit_zero (env : DfuEnv) (args : Args)
    (key flash data : List Nat) (offset addr : Nat) (down up opt reg : Event)
    (hu : args.unprotect = false) (hf : args.skip_flash = false)
    (hr : args.skip_register = false)
    (hflash : flash = generate_flash APP_EUI args.id key args.board_id
      args.board_version)
    (hoff : offset = FLASH_SIZE - flash.length)
    (hdata : data = program_flash_data flash offset)
    (haddr : addr = program_flash_address offset)
    (hdown : down = Event.dfuDownload DFU_FLASH_ALT data addr)
    (hup : up = Event.dfuUpload DFU_FLASH_ALT (verify_dfu_read_length data) addr
      env.readBack)
    (hopt : opt = Event.dfuDownload DFU_OPTION_ALT
      (encode_option_bytes OPTION_BYTES_PROTECTED) OPTION_START_ADDRESS)
    (hreg : reg = Event.ttnRegister args.id key) :
    (pymain env args key).exit_status = 0 ∧
    (env.flashWriteOk = false →
      (pymain env args key).trace = [down] ∧
      (pymain env args key).logged_error ≠ none) ∧
    (env.flashWriteOk = true → env.verifyUploadOk = false →
      (pymain env args key).trace = [down, up] ∧
      (pymain env args key).logged_error ≠ none) ∧
    (env.flashWriteOk = true → env.verifyUploadOk = true →
      verify_dfu_matches data env.readBack = false →
      (pymain env args key).trace = [down, up] ∧
      (pymain env args key).logged_error ≠ none) ∧
    (env.flashWriteOk = true → env.verifyUploadOk = true →
      verify_dfu_matches data env.readBack = true → env.optionWriteOk = false →
      (pymain env args key).trace = [down, up, opt] ∧
      (pymain env args key).logged_error ≠ none) ∧
    (env.flashWriteOk = true → env.verifyUploadOk = true →
      verify_dfu_matches data env.readBack = true → env.optionWriteOk = true →
      env.registerOk = false →
      (pymain env args key).trace = [down, up, opt, reg] ∧
      (pymain env args key).logged_error ≠ none) ∧
    (env.flashWriteOk = true → env.verifyUploadOk = true →
      verify_dfu_matches data env.readBack = true → env.optionWriteOk = true →
      env.registerOk = true →
      (pymain env args key).trace = [down, up, opt, reg] ∧
      (pymain env args key).logged_error = none) := by
  subst hdown hup hopt hreg hdata haddr hoff hflash
  obtain ⟨fw, vu, rb, ow, rg⟩ := env
  refine ⟨rfl, ?_, ?_, ?_, ?_, ?_, ?_⟩
  · intro h1
    subst h1
    simp [pymain, main_try, run_program_flash, hu, hf]
  · intro h1 h2
    subst h1
    subst h2
    simp [pymain, main_try, run_program_flash, hu, hf]
  · intro h1 h2 hm
    subst h1
    subst h2
    simp [pymain, main_try, run_program_flash, hu, hf, hm]
  · intro h1 h2 hm h3
    subst h1
    subst h2
    subst h3
    simp [pymain, main_try, run_program_flash, run_program_option_bytes, hu,
      hf, hm]
  · intro h1 h2 hm h3 h4
    subst h1
    subst h2
    subst h3
    subst h4
    simp [pymain, main_try, run_program_flash, run_program_option_bytes,
      run_register, hu, hf, hr, hm]
  · intro h1 h2 hm h3 h4
    subst h1
    subst h2
    subst h3
    subst h4
    simp [pymain, main_try, run_program_flash, run_program_option_bytes,
      run_register, hu, hf, hr, hm]

/-- C7 witness: the abort/exit-status theorem applied to a run whose
flash write fails. -/
theorem c7_errors_abort_and_exit_zero_witness :
    (pymain
      { flashWriteOk := false, verifyUploadOk := true, readBack := [],
        optionWriteOk := true, registerOk := true }
      { board_id := 2, board_version := 2, id := 7, skip_flash := false,
        skip_register := false, unprotect := false } []).exit_status = 0 ∧
    (pymain
      { flashWriteOk := false, verifyUploadOk := true, readBack := [],
        optionWriteOk := true, registerOk := true }
      { board_id := 2, board_version := 2, id := 7, skip_flash := false,
        skip_register := false, unprotect := false } []).trace =
      [Event.dfuDownload DFU_FLASH_ALT
        (program_flash_data (generate_flash APP_EUI 7 [] 2 2)
          (FLASH_SIZE - (generate_flash APP_EUI 7 [] 2 2).length))
        (program_flash_address
          (FLASH_SIZE - (generate_flash APP_EUI 7 [] 2 2).length))] ∧
    (pymain
      { flashWriteOk := false, verifyUploadOk := true, readBack := [],
        optionWriteOk := true, registerOk := true }
      { board_id := 2, board_version := 2, id := 7, skip_flash := false,
        skip_register := false, unprotect := false } []).logged_error ≠ none := by
  have h := c7_errors_abort_and_exit_zero
    { flashWriteOk := false, verifyUploadOk := true, readBack := [],
      optionWriteOk := true, registerOk := true }
    { board_id := 2, board_version := 2, id := 7, skip_flash := false,
      skip_register := false, unprotect := false }
    [] (generate_flash APP_EUI 7 [] 2 2)
    (program_flash_data (generate_flash APP_EUI 7 [] 2 2)
      (FLASH_SIZE - (generate_flash APP_EUI 7 [] 2 2).length))
    (FLASH_SIZE - (generate_flash APP_EUI 7 [] 2 2).length)
    (program_flash_address (FLASH_SIZE - (generate_flash APP_EUI 7 [] 2 2).length))
    (Event.dfuDownload DFU_FLASH_ALT
      (program_flash_data (generate_flash APP_EUI 7 [] 2 2)
        (FLASH_SIZE - (generate_flash APP_EUI 7 [] 2 2).length))
      (program_flash_address
        (FLASH_SIZE - (generate_flash APP_EUI 7 [] 2 2).length)))
    (Event.dfuUpload DFU_FLASH_ALT
      (verify_dfu_read_length
        (program_flash_data (generate_flash APP_EUI 7 [] 2 2)
          (FLASH_SIZE - (generate_flash APP_EUI 7 [] 2 2).length)))
      (program_flash_address
        (FLASH_SIZE - (generate_flash APP_EUI 7 [] 2 2).length)) [])
    (Event.dfuDownload DFU_OPTION_ALT
      (encode_option_bytes OPTION_BYTES_PROTECTED) OPTION_START_ADDRESS)
    (Event.ttnRegister 7 [])
    rfl rfl rfl rfl rfl rfl rfl rfl rfl rfl rfl
  exact ⟨h.1, (h.2.1 rfl).1, (h.2.1 rfl).2⟩

/-- C9: in unprotect mode the run issues exactly one external call: a
download of the 24-byte UNPROTECTED option image to the option region at
`OPTION_START_ADDRESS` — no storage-region write, no verification
upload, and no registration, whatever the environment does. -/
theorem c9_unprotect_only_option (env : DfuEnv) (bid bver id : Nat)
    (key : List Nat) :
    (pymain env
      { board_id := bid, board_version := bver, id := id, skip_flash := false,
        skip_register := false, unprotect := true } key).trace =
      [Event.dfuDownload DFU_OPTION_ALT
        (encode_option_bytes OPTION_BYTES_UNPROTECTED) OPTION_START_ADDRESS] ∧
    (encode_option_bytes OPTION_BYTES_UNPROTECTED).length = 24 ∧
    (∀ d a, Event.dfuDownload DFU_FLASH_ALT d a ∉
      (pymain env
        { board_id := bid, board_version := bver, id := id, skip_flash := false,
          skip_register := false, unprotect := true } key).trace) ∧
    (∀ alt n a rb, Event.dfuUpload alt n a rb ∉
      (pymain env
        { board_id := bid, board_version := bver, id := id, skip_flash := false,
          skip_register := false, unprotect := true } key).trace) ∧
    (∀ de k, Event.ttnRegister de k ∉
      (pymain env
        { board_id := bid, board_version := bver, id := id, skip_flash := false,
          skip_register := false, unprotect := true } key).trace) := by
  have ht : (pymain env
      { board_id := bid, board_version := bver, id := id, skip_flash := false,
        skip_register := false, unprotect := true } key).trace =
      [Event.dfuDownload DFU_OPTION_ALT
        (encode_option_bytes OPTION_BYTES_UNPROTECTED) OPTION_START_ADDRESS] := by
    obtain ⟨fw, vu, rb, ow, rg⟩ := env
    cases ow <;> simp [pymain, main_try, run_program_option_bytes]
  refine ⟨ht, by decide, ?_, ?_, ?_⟩
  · intro d a hmem
    rw [ht] at hmem
    simp only [List.mem_singleton] at hmem
    injection hmem with halt hd ha
    exact absurd halt (by decide)
  · intro alt n a rb hmem
    rw [ht] at hmem
    simp only [List.mem_singleton] at hmem
    exact Event.noConfusion hmem
  · intro de k hmem
    rw [ht] at hmem
    simp only [List.mem_singleton] at hmem
    exact Event.noConfusion hmem

/-- C9 witness: the unprotect theorem applied at a concrete environment
and arguments. -/
theorem c9_unprotect_only_option_witness :
    (pymain
      { flashWriteOk := true, verifyUploadOk := true, readBack := [],
        optionWriteOk := true, registerOk := true }
      { board_id := 0, board_version := 0, id := 0, skip_flash := false,
        skip_register := false, unprotect := true } []).trace =
      [Event.dfuDownload DFU_OPTION_ALT
        (encode_option_bytes OPTION_BYTES_UNPROTECTED) OPTION_START_ADDRESS] :=
  (c9_unprotect_only_option
    { flashWriteOk := true, verifyUploadOk := true, readBack := [],
      optionWriteOk := true, registerOk := true } 0 0 0 []).1

/-- C10: the read-back verification compares the whole padded payload:
it reads `padding + len(flash)` bytes, succeeds exactly when the
read-back equals the zero padding followed by the block, and fails
whenever the padding region reads back non-zero even if the logical
block bytes match. -/
theorem c10_verify_compares_padding (offset : Nat)
    (flash read_back : List Nat) :
    verify_dfu_read_length (program_flash_data flash offset) =
      offset % FLASH_ALIGN + flash.length ∧
    (verify_dfu_matches (program_flash_data flash offset) read_back = true ↔
      read_back = List.replicate (offset % FLASH_ALIGN) 0 ++ flash) ∧
    (read_back.drop (offset % FLASH_ALIGN) = flash →
      read_back.take (offset % FLASH_ALIGN) ≠
        List.replicate (offset % FLASH_ALIGN) 0 →
      verify_dfu_matches (program_flash_data flash offset) read_back = false) := by
  have hiff : verify_dfu_matches (program_flash_data flash offset) read_back =
        true ↔
      read_back = List.replicate (offset % FLASH_ALIGN) 0 ++ flash := by
    simp [verify_dfu_matches, program_flash_data, program_flash_padding]
  refine ⟨by simp [verify_dfu_read_length, program_flash_data,
    program_flash_padding], hiff, ?_⟩
  intro hd ht
  cases hb : verify_dfu_matches (program_flash_data flash offset) read_back with
  | false => rfl
  | true =>
    exfalso
    apply ht
    rw [hiff.mp hb, List.take_left' (List.length_replicate _ _)]

/-- C10 witness: verification fails on a read-back whose logical bytes
match but whose padding region is non-zero. -/
theorem c10_verify_compares_padding_witness :
    verify_dfu_matches (program_flash_data [1] 4) [9, 0, 0, 0, 1] = false :=
  (c10_verify_compares_padding 4 [1] [9, 0, 0, 0, 1]).2.2 (by decide) (by decide)
